import Mathlib

/-!
Shallow embedding of `src/src/components/LoadingScreen.tsx`.

The component is a transient loading-sequence controller.  We model its
reactive behaviour as an explicit state machine:

* `DeviceTier` mirrors `type DeviceTier = 'mobile' | 'tablet' | 'desktop'`.
* `getDeviceTier` mirrors the classifier (lines 10-15), with the viewport
  width passed explicitly instead of read from `window.innerWidth`.
* `LSState` collects the component's React state (`tier`, `videoReady`,
  `progress`), the `completedRef` latch, and the scheduler resources the
  effects register: the three `setTimeout` handles (stored as absolute
  deadlines; `none` = not registered / cleared) and the
  `requestAnimationFrame` loop (stored as the animation start time;
  `none` = no pending frame callback).  `callbackCount` counts invocations
  of the host `onComplete` callback and `errorLogs` counts
  `console.error` diagnostics; neither exists as program state but both
  record the externally observable effects.
* Each `useEffect` body (lines 38-72) becomes a function on `LSState`;
  a tier change runs every effect's cleanup and then re-runs the bodies,
  exactly as React does for effects with `[tier, handleEnd]` / `[tier]`
  dependencies.  (A cleanup `clearTimeout`/`cancelAnimationFrame` on a
  handle the branch never registered is a no-op, so clearing all handles
  models the per-effect cleanups faithfully.)
* `step` delivers one scheduler event: a resize, a timer callback (which
  the scheduler delivers only if the timer is still registered and its
  deadline is that instant), a media event (delivered only while the
  `<video>` element is mounted, i.e. in the desktop tier), or an
  animation frame.

Times are natural-number milliseconds; the progress fraction is a rational.
-/

namespace Anvora

/-- Mirrors `type DeviceTier = 'mobile' | 'tablet' | 'desktop'` (line 8). -/
inductive DeviceTier
  | mobile
  | tablet
  | desktop
deriving DecidableEq

/-- Mirrors `getDeviceTier` (lines 10-15): `w < 768` is mobile,
`w < 1024` is tablet, otherwise desktop.  The viewport width
`window.innerWidth` is the explicit argument `w`. -/
def getDeviceTier (w : Nat) : DeviceTier :=
  if w < 768 then .mobile
  else if w < 1024 then .tablet
  else .desktop

/-- The component state plus the scheduler resources its effects own. -/
structure LSState where
  tier : DeviceTier
  videoReady : Bool
  progress : ℚ
  completed : Bool
  callbackCount : Nat
  errorLogs : Nat
  mobileT : Option Nat
  tabletT : Option Nat
  desktopCap : Option Nat
  progressStart : Option Nat
deriving DecidableEq

/-- Mirrors `handleEnd` (lines 31-35): if `completedRef.current` is set,
return; otherwise set it and invoke the host `onComplete` callback. -/
def handleEnd (s : LSState) : LSState :=
  if s.completed then s
  else { s with completed := true, callbackCount := s.callbackCount + 1 }

/-- Mirrors the mobile effect body (lines 38-42): when the tier is mobile,
`setTimeout(handleEnd, 2000)` registered at time `now`. -/
def mobileEffect (s : LSState) (now : Nat) : LSState :=
  if s.tier = .mobile then { s with mobileT := some (now + 2000) } else s

/-- Mirrors the tablet effect body (lines 45-49): when the tier is tablet,
`setTimeout(handleEnd, 2500)` registered at time `now`. -/
def tabletEffect (s : LSState) (now : Nat) : LSState :=
  if s.tier = .tablet then { s with tabletT := some (now + 2500) } else s

/-- Mirrors the desktop effect body (lines 52-57): when the tier is desktop,
the hard cap `setTimeout(handleEnd, 8000)` registered at time `now`. -/
def desktopEffect (s : LSState) (now : Nat) : LSState :=
  if s.tier = .desktop then { s with desktopCap := some (now + 8000) } else s

/-- Mirrors the progress animation effect body (lines 60-72): for
non-desktop tiers it records `start = performance.now()` and requests the
first animation frame. -/
def progressEffect (s : LSState) (now : Nat) : LSState :=
  if s.tier = .desktop then s else { s with progressStart := some now }

/-- The effect cleanups (lines 41, 48, 56, 71): `clearTimeout` on each
registered timer and `cancelAnimationFrame` on the pending frame request.
Clearing an unregistered handle is a no-op, so clearing every handle is
exactly the union of the per-branch cleanups. -/
def cleanupEffects (s : LSState) : LSState :=
  { s with mobileT := none, tabletT := none, desktopCap := none,
           progressStart := none }

/-- Runs the four effect bodies in source order at time `now`. -/
def runEffects (s : LSState) (now : Nat) : LSState :=
  progressEffect (desktopEffect (tabletEffect (mobileEffect s now) now) now) now

/-- Mirrors `setTier(getDeviceTier())` from the resize listener (line 26).
React bails out when the new state equals the old one; otherwise every
effect keyed on `[tier]` runs its cleanup and then its body. -/
def setTier (s : LSState) (w now : Nat) : LSState :=
  if getDeviceTier w = s.tier then s
  else runEffects (cleanupEffects { s with tier := getDeviceTier w }) now

/-- The animation duration picked by the progress effect (line 62):
1800 ms for mobile, 2200 ms otherwise. -/
def progressDuration (t : DeviceTier) : ℚ :=
  if t = .mobile then 1800 else 2200

/-- Mirrors `tick` (lines 65-69): compute
`pct = min((now - start) / duration, 1)`, set the progress state, and
request another frame only while `pct < 1`.  When no frame request is
pending (`progressStart = none`) the scheduler has nothing to deliver. -/
def frameTick (s : LSState) (now : Nat) : LSState :=
  match s.progressStart with
  | none => s
  | some start =>
      let pct := min (((now - start : Nat) : ℚ) / progressDuration s.tier) 1
      if pct < 1 then { s with progress := pct }
      else { s with progress := pct, progressStart := none }

/-- The scheduler events one session can deliver, each carrying the
instant `t` at which it is delivered (and for a resize the new width). -/
inductive Event
  | resize (t w : Nat)
  | fireMobile (t : Nat)
  | fireTablet (t : Nat)
  | fireCap (t : Nat)
  | ended (t : Nat)
  | error (t : Nat)
  | canPlay (t : Nat)
  | frame (t : Nat)
deriving DecidableEq

/-- Delivers one event.  A timer callback runs only if that timer is still
registered and due now (a cleared timer never fires); firing consumes the
registration.  Media events (`onEnded`, `onError`, `onCanPlayThrough`,
lines 159-164) exist only while the `<video>` element is rendered, i.e.
in the desktop tier.  `onError` first logs `console.error` (line 162). -/
def step (s : LSState) : Event → LSState
  | .resize t w => setTier s w t
  | .fireMobile t =>
      if s.mobileT = some t then handleEnd { s with mobileT := none } else s
  | .fireTablet t =>
      if s.tabletT = some t then handleEnd { s with tabletT := none } else s
  | .fireCap t =>
      if s.desktopCap = some t then handleEnd { s with desktopCap := none } else s
  | .ended _ => if s.tier = .desktop then handleEnd s else s
  | .error _ =>
      if s.tier = .desktop then handleEnd { s with errorLogs := s.errorLogs + 1 }
      else s
  | .canPlay _ => if s.tier = .desktop then { s with videoReady := true } else s
  | .frame t => frameTick s t

/-- The component state right after mount at time `t0` with viewport width
`w`: `useState` initialisers (lines 18-22) followed by the first run of
every effect. -/
def initState (w t0 : Nat) : LSState :=
  runEffects
    { tier := getDeviceTier w, videoReady := false, progress := 0,
      completed := false, callbackCount := 0, errorLogs := 0,
      mobileT := none, tabletT := none, desktopCap := none,
      progressStart := none } t0

/-- Delivers a list of events in order. -/
def run (s : LSState) (evs : List Event) : LSState :=
  evs.foldl step s

/-- What the host and the user can observe: the rendered signals (tier,
progress fraction, video readiness) and the completion callback.
`console.error` diagnostics and internal timer handles are not part of it. -/
structure HostView where
  tier : DeviceTier
  videoReady : Bool
  progress : ℚ
  completed : Bool
  callbackCount : Nat
deriving DecidableEq

/-- Projects the host-visible part of a state. -/
def hostView (s : LSState) : HostView :=
  { tier := s.tier, videoReady := s.videoReady, progress := s.progress,
    completed := s.completed, callbackCount := s.callbackCount }

/-- Mirrors the buffering-indicator condition (line 168): it renders only
in the desktop branch while `!videoReady`. -/
def showBuffering (s : LSState) : Bool :=
  s.tier = DeviceTier.desktop ∧ ¬ s.videoReady

/-- Event classifiers used to phrase `untouched by ...` hypotheses. -/
def Event.isResize : Event → Bool
  | .resize _ _ => true
  | _ => false

def Event.isFireMobile : Event → Bool
  | .fireMobile _ => true
  | _ => false

def Event.isFireTablet : Event → Bool
  | .fireTablet _ => true
  | _ => false

def Event.isFireCap : Event → Bool
  | .fireCap _ => true
  | _ => false

def Event.isMedia : Event → Bool
  | .ended _ => true
  | .error _ => true
  | _ => false

/-! ### Field-preservation lemmas -/

@[simp]
lemma runEffects_tier (s : LSState) (now : Nat) :
    (runEffects s now).tier = s.tier := by
  unfold runEffects progressEffect desktopEffect tabletEffect mobileEffect
  split_ifs <;> rfl

@[simp]
lemma runEffects_completed (s : LSState) (now : Nat) :
    (runEffects s now).completed = s.completed := by
  unfold runEffects progressEffect desktopEffect tabletEffect mobileEffect
  split_ifs <;> rfl

@[simp]
lemma runEffects_callbackCount (s : LSState) (now : Nat) :
    (runEffects s now).callbackCount = s.callbackCount := by
  unfold runEffects progressEffect desktopEffect tabletEffect mobileEffect
  split_ifs <;> rfl

@[simp]
lemma runEffects_videoReady (s : LSState) (now : Nat) :
    (runEffects s now).videoReady = s.videoReady := by
  unfold runEffects progressEffect desktopEffect tabletEffect mobileEffect
  split_ifs <;> rfl

@[simp]
lemma runEffects_errorLogs (s : LSState) (now : Nat) :
    (runEffects s now).errorLogs = s.errorLogs := by
  unfold runEffects progressEffect desktopEffect tabletEffect mobileEffect
  split_ifs <;> rfl

@[simp]
lemma runEffects_progress (s : LSState) (now : Nat) :
    (runEffects s now).progress = s.progress := by
  unfold runEffects progressEffect desktopEffect tabletEffect mobileEffect
  split_ifs <;> rfl

@[simp]
lemma setTier_completed (s : LSState) (w now : Nat) :
    (setTier s w now).completed = s.completed := by
  unfold setTier
  split_ifs <;> simp [cleanupEffects]

@[simp]
lemma setTier_callbackCount (s : LSState) (w now : Nat) :
    (setTier s w now).callbackCount = s.callbackCount := by
  unfold setTier
  split_ifs <;> simp [cleanupEffects]

@[simp]
lemma setTier_videoReady (s : LSState) (w now : Nat) :
    (setTier s w now).videoReady = s.videoReady := by
  unfold setTier
  split_ifs <;> simp [cleanupEffects]

@[simp]
lemma setTier_errorLogs (s : LSState) (w now : Nat) :
    (setTier s w now).errorLogs = s.errorLogs := by
  unfold setTier
  split_ifs <;> simp [cleanupEffects]

@[simp]
lemma frameTick_completed (s : LSState) (now : Nat) :
    (frameTick s now).completed = s.completed := by
  unfold frameTick
  cases s.progressStart <;> simp <;> split_ifs <;> rfl

@[simp]
lemma frameTick_callbackCount (s : LSState) (now : Nat) :
    (frameTick s now).callbackCount = s.callbackCount := by
  unfold frameTick
  cases s.progressStart <;> simp <;> split_ifs <;> rfl

@[simp]
lemma frameTick_videoReady (s : LSState) (now : Nat) :
    (frameTick s now).videoReady = s.videoReady := by
  unfold frameTick
  cases s.progressStart <;> simp <;> split_ifs <;> rfl

@[simp]
lemma frameTick_errorLogs (s : LSState) (now : Nat) :
    (frameTick s now).errorLogs = s.errorLogs := by
  unfold frameTick
  cases s.progressStart <;> simp <;> split_ifs <;> rfl

@[simp]
lemma frameTick_tier (s : LSState) (now : Nat) :
    (frameTick s now).tier = s.tier := by
  unfold frameTick
  cases s.progressStart <;> simp <;> split_ifs <;> rfl

@[simp]
lemma frameTick_mobileT (s : LSState) (now : Nat) :
    (frameTick s now).mobileT = s.mobileT := by
  unfold frameTick
  cases s.progressStart <;> simp <;> split_ifs <;> rfl

@[simp]
lemma frameTick_tabletT (s : LSState) (now : Nat) :
    (frameTick s now).tabletT = s.tabletT := by
  unfold frameTick
  cases s.progressStart <;> simp <;> split_ifs <;> rfl

@[simp]
lemma frameTick_desktopCap (s : LSState) (now : Nat) :
    (frameTick s now).desktopCap = s.desktopCap := by
  unfold frameTick
  cases s.progressStart <;> simp <;> split_ifs <;> rfl

@[simp]
lemma handleEnd_completed (s : LSState) : (handleEnd s).completed = true := by
  unfold handleEnd
  split_ifs with h
  · exact h
  · rfl

@[simp]
lemma handleEnd_videoReady (s : LSState) :
    (handleEnd s).videoReady = s.videoReady := by
  unfold handleEnd
  split_ifs <;> rfl

@[simp]
lemma run_nil (s : LSState) : run s [] = s := rfl

@[simp]
lemma run_cons (s : LSState) (e : Event) (evs : List Event) :
    run s (e :: evs) = run (step s e) evs := rfl

/-! ### Evaluation lemmas for mount and tier change -/

lemma initState_eq (w t0 : Nat) :
    initState w t0 =
      { tier := getDeviceTier w, videoReady := false, progress := 0,
        completed := false, callbackCount := 0, errorLogs := 0,
        mobileT := if getDeviceTier w = .mobile then some (t0 + 2000) else none,
        tabletT := if getDeviceTier w = .tablet then some (t0 + 2500) else none,
        desktopCap := if getDeviceTier w = .desktop then some (t0 + 8000) else none,
        progressStart := if getDeviceTier w = .desktop then none else some t0 } := by
  unfold initState runEffects progressEffect desktopEffect tabletEffect mobileEffect
  cases h : getDeviceTier w <;> simp [h]

lemma setTier_ne_eq (s : LSState) (w now : Nat) (h : getDeviceTier w ≠ s.tier) :
    setTier s w now =
      { s with
        tier := getDeviceTier w,
        mobileT := if getDeviceTier w = .mobile then some (now + 2000) else none,
        tabletT := if getDeviceTier w = .tablet then some (now + 2500) else none,
        desktopCap := if getDeviceTier w = .desktop then some (now + 8000) else none,
        progressStart := if getDeviceTier w = .desktop then none else some now } := by
  unfold setTier runEffects progressEffect desktopEffect tabletEffect mobileEffect
    cleanupEffects
  rw [if_neg h]
  cases h2 : getDeviceTier w <;> simp [h2]

/-! ### The completion latch invariant -/

/-- The host callback has been invoked exactly once when the latch is set
and never before the latch is set. -/
def CountInv (s : LSState) : Prop :=
  s.callbackCount = if s.completed then 1 else 0

lemma handleEnd_countInv {s : LSState} (h : CountInv s) :
    CountInv (handleEnd s) := by
  unfold CountInv handleEnd at *
  by_cases hc : s.completed <;> simp [hc] at h ⊢ <;> simp [h]

lemma step_countInv {s : LSState} (e : Event) (h : CountInv s) :
    CountInv (step s e) := by
  cases e with
  | resize t w =>
      unfold CountInv at *
      simpa [step] using h
  | fireMobile t =>
      simp only [step]
      split_ifs with hg
      · exact handleEnd_countInv h
      · exact h
  | fireTablet t =>
      simp only [step]
      split_ifs with hg
      · exact handleEnd_countInv h
      · exact h
  | fireCap t =>
      simp only [step]
      split_ifs with hg
      · exact handleEnd_countInv h
      · exact h
  | ended t =>
      simp only [step]
      split_ifs with hg
      · exact handleEnd_countInv h
      · exact h
  | error t =>
      simp only [step]
      split_ifs with hg
      · exact handleEnd_countInv h
      · exact h
  | canPlay t =>
      simp only [step]
      split_ifs with hg
      · exact h
      · exact h
  | frame t =>
      unfold CountInv at *
      simpa [step] using h

lemma step_completed_mono {s : LSState} (e : Event) (h : s.completed = true) :
    (step s e).completed = true := by
  cases e <;> simp only [step] <;> first
    | simpa using h
    | (split_ifs <;> simp [h])

lemma step_videoReady_mono {s : LSState} (e : Event) (h : s.videoReady = true) :
    (step s e).videoReady = true := by
  cases e <;> simp only [step] <;> first
    | simpa using h
    | (split_ifs <;> simp [h])

lemma run_countInv {s : LSState} (evs : List Event) (h : CountInv s) :
    CountInv (run s evs) := by
  induction evs generalizing s with
  | nil => simpa using h
  | cons e evs ih => exact ih (step_countInv e h)

lemma run_completed_mono {s : LSState} (evs : List Event)
    (h : s.completed = true) : (run s evs).completed = true := by
  induction evs generalizing s with
  | nil => simpa using h
  | cons e evs ih => exact ih (step_completed_mono e h)

lemma run_videoReady_mono {s : LSState} (evs : List Event)
    (h : s.videoReady = true) : (run s evs).videoReady = true := by
  induction evs generalizing s with
  | nil => simpa using h
  | cons e evs ih => exact ih (step_videoReady_mono e h)

lemma initState_countInv (w t0 : Nat) : CountInv (initState w t0) := by
  simp [CountInv, initState_eq]

/-- Run induction principle restricted to the events actually delivered. -/
lemma run_inv {P : LSState → Prop} {s : LSState} (evs : List Event)
    (h : P s) (hstep : ∀ s' e, e ∈ evs → P s' → P (step s' e)) :
    P (run s evs) := by
  induction evs generalizing s with
  | nil => simpa using h
  | cons e evs ih =>
      exact ih (hstep s e (List.mem_cons_self e evs) h)
        (fun s' e' he' hp => hstep s' e' (List.mem_cons_of_mem e he') hp)

/-! ### Claims -/

/-- Claim C2: tier classification is a pure, total function of the viewport
width: every width below 768 yields mobile (Compact), widths in
[768, 1024) yield tablet (Medium), and widths of at least 1024 yield
desktop (Large). -/
theorem tier_classification (w : Nat) :
    (w < 768 → getDeviceTier w = DeviceTier.mobile) ∧
    (768 ≤ w → w < 1024 → getDeviceTier w = DeviceTier.tablet) ∧
    (1024 ≤ w → getDeviceTier w = DeviceTier.desktop) := by
  unfold getDeviceTier
  refine ⟨fun h => ?_, fun h1 h2 => ?_, fun h => ?_⟩ <;>
    split_ifs <;> first | rfl | omega

/-- Witness for C2 at the spec scenario widths 500, 900 and 1200. -/
theorem tier_classification_witness :
    getDeviceTier 500 = DeviceTier.mobile ∧
    getDeviceTier 900 = DeviceTier.tablet ∧
    getDeviceTier 1200 = DeviceTier.desktop :=
  ⟨(tier_classification 500).1 (by decide),
   (tier_classification 900).2.1 (by decide) (by decide),
   (tier_classification 1200).2.2 (by decide)⟩

/-- Claim C1: at-most-once completion.  Over every sequence of trigger
events in one session the host callback is invoked at most once, and once
the completion latch is set it never resets and delivers no further
callback invocations, whatever events follow. -/
theorem at_most_once_completion (w t0 : Nat) (evs evs2 : List Event) :
    (run (initState w t0) evs).callbackCount ≤ 1 ∧
    ((run (initState w t0) evs).completed = true →
      (run (run (initState w t0) evs) evs2).completed = true ∧
      (run (run (initState w t0) evs) evs2).callbackCount =
        (run (initState w t0) evs).callbackCount) := by
  have h1 : CountInv (run (initState w t0) evs) :=
    run_countInv evs (initState_countInv w t0)
  have h2 : CountInv (run (run (initState w t0) evs) evs2) :=
    run_countInv evs2 h1
  unfold CountInv at h1 h2
  constructor
  · rw [h1]
    split_ifs <;> omega
  · intro hc
    have hm := run_completed_mono evs2 hc
    exact ⟨hm, by rw [h1, h2, hm, hc]⟩

/-- Witness for C1: mobile session that completes via its 2000 ms timer,
then receives further (stale) events which change nothing. -/
theorem at_most_once_completion_witness :
    (run (initState 500 0) [Event.fireMobile 2000]).callbackCount ≤ 1 ∧
    (run (run (initState 500 0) [Event.fireMobile 2000])
      [Event.fireTablet 2500, Event.ended 3000]).completed = true ∧
    (run (run (initState 500 0) [Event.fireMobile 2000])
      [Event.fireTablet 2500, Event.ended 3000]).callbackCount =
      (run (initState 500 0) [Event.fireMobile 2000]).callbackCount := by
  have h := at_most_once_completion 500 0 [Event.fireMobile 2000]
    [Event.fireTablet 2500, Event.ended 3000]
  have hc : (run (initState 500 0) [Event.fireMobile 2000]).completed = true := by
    decide
  exact ⟨h.1, (h.2 hc).1, (h.2 hc).2⟩

/-- States reachable while a mobile branch started at `t0` runs untouched:
only its own 2000 ms timer is registered and nothing has completed. -/
def MobileRunInv (t0 : Nat) (s : LSState) : Prop :=
  s.tier = DeviceTier.mobile ∧ s.mobileT = some (t0 + 2000) ∧
  s.tabletT = none ∧ s.desktopCap = none ∧
  s.completed = false ∧ s.callbackCount = 0

/-- States reachable while a tablet branch started at `t0` runs untouched:
only its own 2500 ms timer is registered and nothing has completed. -/
def TabletRunInv (t0 : Nat) (s : LSState) : Prop :=
  s.tier = DeviceTier.tablet ∧ s.tabletT = some (t0 + 2500) ∧
  s.mobileT = none ∧ s.desktopCap = none ∧
  s.completed = false ∧ s.callbackCount = 0

/-- States reachable while a desktop branch started at `t0` runs with no
resize and no media terminal event: only the 8000 ms cap is registered. -/
def DesktopRunInv (t0 : Nat) (s : LSState) : Prop :=
  s.tier = DeviceTier.desktop ∧ s.desktopCap = some (t0 + 8000) ∧
  s.mobileT = none ∧ s.tabletT = none ∧ s.progressStart = none ∧
  s.completed = false ∧ s.callbackCount = 0

lemma mobileRunInv_step {t0 : Nat} {s : LSState} (hs : MobileRunInv t0 s)
    (e : Event) (hr : e.isResize = false) (hm : e.isFireMobile = false) :
    MobileRunInv t0 (step s e) := by
  obtain ⟨h1, h2, h3, h4, h5, h6⟩ := hs
  cases e with
  | resize t w => simp [Event.isResize] at hr
  | fireMobile t => simp [Event.isFireMobile] at hm
  | fireTablet t =>
      simp only [step, h3]
      exact ⟨h1, h2, h3, h4, h5, h6⟩
  | fireCap t =>
      simp only [step, h4]
      exact ⟨h1, h2, h3, h4, h5, h6⟩
  | ended t =>
      simp only [step, h1]
      exact ⟨h1, h2, h3, h4, h5, h6⟩
  | error t =>
      simp only [step, h1]
      exact ⟨h1, h2, h3, h4, h5, h6⟩
  | canPlay t =>
      simp only [step, h1]
      exact ⟨h1, h2, h3, h4, h5, h6⟩
  | frame t =>
      exact ⟨by simp [step, h1], by simp [step, h2], by simp [step, h3],
        by simp [step, h4], by simp [step, h5], by simp [step, h6]⟩

lemma tabletRunInv_step {t0 : Nat} {s : LSState} (hs : TabletRunInv t0 s)
    (e : Event) (hr : e.isResize = false) (hm : e.isFireTablet = false) :
    TabletRunInv t0 (step s e) := by
  obtain ⟨h1, h2, h3, h4, h5, h6⟩ := hs
  cases e with
  | resize t w => simp [Event.isResize] at hr
  | fireTablet t => simp [Event.isFireTablet] at hm
  | fireMobile t =>
      simp only [step, h3]
      exact ⟨h1, h2, h3, h4, h5, h6⟩
  | fireCap t =>
      simp only [step, h4]
      exact ⟨h1, h2, h3, h4, h5, h6⟩
  | ended t =>
      simp only [step, h1]
      exact ⟨h1, h2, h3, h4, h5, h6⟩
  | error t =>
      simp only [step, h1]
      exact ⟨h1, h2, h3, h4, h5, h6⟩
  | canPlay t =>
      simp only [step, h1]
      exact ⟨h1, h2, h3, h4, h5, h6⟩
  | frame t =>
      exact ⟨by simp [step, h1], by simp [step, h2], by simp [step, h3],
        by simp [step, h4], by simp [step, h5], by simp [step, h6]⟩

lemma desktopRunInv_step {t0 : Nat} {s : LSState} (hs : DesktopRunInv t0 s)
    (e : Event) (hr : e.isResize = false) (hcap : e.isFireCap = false)
    (hmed : e.isMedia = false) :
    DesktopRunInv t0 (step s e) := by
  obtain ⟨h1, h2, h3, h4, h5, h6, h7⟩ := hs
  cases e with
  | resize t w => simp [Event.isResize] at hr
  | fireCap t => simp [Event.isFireCap] at hcap
  | ended t => simp [Event.isMedia] at hmed
  | error t => simp [Event.isMedia] at hmed
  | fireMobile t =>
      simp only [step, h3]
      exact ⟨h1, h2, h3, h4, h5, h6, h7⟩
  | fireTablet t =>
      simp only [step, h4]
      exact ⟨h1, h2, h3, h4, h5, h6, h7⟩
  | canPlay t =>
      have hstep : step s (Event.canPlay t) = { s with videoReady := true } := by
        simp [step, h1]
      rw [hstep]
      exact ⟨h1, h2, h3, h4, h5, h6, h7⟩
  | frame t =>
      have : frameTick s t = s := by
        unfold frameTick
        rw [h5]
      simp only [step, this]
      exact ⟨h1, h2, h3, h4, h5, h6, h7⟩

lemma getDeviceTier_eq_mobile {w : Nat} (h : w < 768) :
    getDeviceTier w = DeviceTier.mobile := by
  unfold getDeviceTier
  split_ifs <;> first | rfl | omega

lemma getDeviceTier_eq_tablet {w : Nat} (h1 : 768 ≤ w) (h2 : w < 1024) :
    getDeviceTier w = DeviceTier.tablet := by
  unfold getDeviceTier
  split_ifs <;> first | rfl | omega

lemma getDeviceTier_eq_desktop {w : Nat} (h : 1024 ≤ w) :
    getDeviceTier w = DeviceTier.desktop := by
  unfold getDeviceTier
  split_ifs <;> first | rfl | omega

lemma initState_mobileRunInv (w t0 : Nat) (hw : w < 768) :
    MobileRunInv t0 (initState w t0) := by
  rw [initState_eq]
  unfold MobileRunInv
  refine ⟨?_, ?_, ?_, ?_, ?_, ?_⟩ <;> simp [getDeviceTier_eq_mobile hw]

lemma initState_tabletRunInv (w t0 : Nat) (hw1 : 768 ≤ w) (hw2 : w < 1024) :
    TabletRunInv t0 (initState w t0) := by
  rw [initState_eq]
  unfold TabletRunInv
  refine ⟨?_, ?_, ?_, ?_, ?_, ?_⟩ <;> simp [getDeviceTier_eq_tablet hw1 hw2]

lemma initState_desktopRunInv (w t0 : Nat) (hw : 1024 ≤ w) :
    DesktopRunInv t0 (initState w t0) := by
  rw [initState_eq]
  unfold DesktopRunInv
  refine ⟨?_, ?_, ?_, ?_, ?_, ?_, ?_⟩ <;> simp [getDeviceTier_eq_desktop hw]

/-- Claim C3: fixed-timer exactness.  A mobile (Compact) branch activated
at `t0` and untouched by tier changes keeps exactly one pending timer with
deadline `t0 + 2000`; that timer callback sets the latch and invokes the
host callback, the scheduler can deliver it at no other instant, and media
events are no-ops in this branch.  The tablet (Medium) branch behaves the
same with deadline `t0 + 2500`. -/
theorem fixed_timer_exactness (w t0 : Nat) (evs : List Event)
    (hevs : ∀ e ∈ evs, e.isResize = false ∧ e.isFireMobile = false ∧
      e.isFireTablet = false) :
    (w < 768 →
      (run (initState w t0) evs).mobileT = some (t0 + 2000) ∧
      (run (initState w t0) evs).completed = false ∧
      (step (run (initState w t0) evs)
        (Event.fireMobile (t0 + 2000))).completed = true ∧
      (step (run (initState w t0) evs)
        (Event.fireMobile (t0 + 2000))).callbackCount = 1 ∧
      (∀ t, t ≠ t0 + 2000 →
        step (run (initState w t0) evs) (Event.fireMobile t) =
          run (initState w t0) evs) ∧
      (∀ t, step (run (initState w t0) evs) (Event.ended t) =
          run (initState w t0) evs ∧
        step (run (initState w t0) evs) (Event.error t) =
          run (initState w t0) evs)) ∧
    (768 ≤ w → w < 1024 →
      (run (initState w t0) evs).tabletT = some (t0 + 2500) ∧
      (run (initState w t0) evs).completed = false ∧
      (step (run (initState w t0) evs)
        (Event.fireTablet (t0 + 2500))).completed = true ∧
      (step (run (initState w t0) evs)
        (Event.fireTablet (t0 + 2500))).callbackCount = 1 ∧
      (∀ t, t ≠ t0 + 2500 →
        step (run (initState w t0) evs) (Event.fireTablet t) =
          run (initState w t0) evs) ∧
      (∀ t, step (run (initState w t0) evs) (Event.ended t) =
          run (initState w t0) evs ∧
        step (run (initState w t0) evs) (Event.error t) =
          run (initState w t0) evs)) := by
  constructor
  · intro hw
    have hinv : MobileRunInv t0 (run (initState w t0) evs) := by
      refine run_inv evs (initState_mobileRunInv w t0 hw) ?_
      intro s' e he hp
      exact mobileRunInv_step hp e (hevs e he).1 (hevs e he).2.1
    obtain ⟨h1, h2, h3, h4, h5, h6⟩ := hinv
    refine ⟨h2, h5, ?_, ?_, ?_, ?_⟩
    · simp [step, h2, handleEnd, h5]
    · simp [step, h2, handleEnd, h5, h6]
    · intro t htne
      have hne : (run (initState w t0) evs).mobileT ≠ some t := by
        rw [h2]
        simp only [ne_eq, Option.some.injEq]
        omega
      simp [step, hne]
    · intro t
      constructor <;> simp [step, h1]
  · intro hw1 hw2
    have hinv : TabletRunInv t0 (run (initState w t0) evs) := by
      refine run_inv evs (initState_tabletRunInv w t0 hw1 hw2) ?_
      intro s' e he hp
      exact tabletRunInv_step hp e (hevs e he).1 (hevs e he).2.2
    obtain ⟨h1, h2, h3, h4, h5, h6⟩ := hinv
    refine ⟨h2, h5, ?_, ?_, ?_, ?_⟩
    · simp [step, h2, handleEnd, h5]
    · simp [step, h2, handleEnd, h5, h6]
    · intro t htne
      have hne : (run (initState w t0) evs).tabletT ≠ some t := by
        rw [h2]
        simp only [ne_eq, Option.some.injEq]
        omega
      simp [step, hne]
    · intro t
      constructor <;> simp [step, h1]

/-- Witness for C3: the untouched mobile branch completes exactly when its
2000 ms timer is delivered, the tablet branch with its 2500 ms timer. -/
theorem fixed_timer_exactness_witness :
    (step (run (initState 500 0) [Event.frame 500])
      (Event.fireMobile 2000)).callbackCount = 1 ∧
    (step (run (initState 900 7) [Event.canPlay 100])
      (Event.fireTablet (7 + 2500))).callbackCount = 1 := by
  have h1 := (fixed_timer_exactness 500 0 [Event.frame 500]
    (by intro e he; simp at he; subst he; exact ⟨rfl, rfl, rfl⟩)).1 (by decide)
  have h2 := (fixed_timer_exactness 900 7 [Event.canPlay 100]
    (by intro e he; simp at he; subst he; exact ⟨rfl, rfl, rfl⟩)).2
    (by decide) (by decide)
  exact ⟨h1.2.2.2.1, h2.2.2.2.1⟩

/-- Claim C4: hard-cap enforcement.  A desktop (Large) branch activated at
`t0` in which no media event is ever delivered keeps the cap timer pending
with deadline exactly `t0 + 8000` and stays uncompleted; delivering the cap
callback at that deadline sets the latch and invokes the host callback,
and the scheduler can deliver the cap at no other instant, so the sequence
never exceeds 8000 ms even if the media stalls indefinitely. -/
theorem hard_cap_enforcement (w t0 : Nat) (evs : List Event)
    (hw : 1024 ≤ w)
    (hevs : ∀ e ∈ evs, e.isResize = false ∧ e.isFireCap = false ∧
      e.isMedia = false) :
    (run (initState w t0) evs).desktopCap = some (t0 + 8000) ∧
    (run (initState w t0) evs).completed = false ∧
    (step (run (initState w t0) evs)
      (Event.fireCap (t0 + 8000))).completed = true ∧
    (step (run (initState w t0) evs)
      (Event.fireCap (t0 + 8000))).callbackCount = 1 ∧
    (∀ t, t ≠ t0 + 8000 →
      step (run (initState w t0) evs) (Event.fireCap t) =
        run (initState w t0) evs) := by
  have hinv : DesktopRunInv t0 (run (initState w t0) evs) := by
    refine run_inv evs (initState_desktopRunInv w t0 hw) ?_
    intro s' e he hp
    exact desktopRunInv_step hp e (hevs e he).1 (hevs e he).2.1 (hevs e he).2.2
  obtain ⟨h1, h2, h3, h4, h5, h6, h7⟩ := hinv
  refine ⟨h2, h6, ?_, ?_, ?_⟩
  · simp [step, h2, handleEnd, h6]
  · simp [step, h2, handleEnd, h6, h7]
  · intro t htne
    have hne : (run (initState w t0) evs).desktopCap ≠ some t := by
      rw [h2]
      simp only [ne_eq, Option.some.injEq]
      omega
    simp [step, hne]

/-- Witness for C4: a silent desktop session (only a readiness event)
completes exactly at the 8000 ms cap. -/
theorem hard_cap_enforcement_witness :
    (step (run (initState 1200 0) [Event.canPlay 100])
      (Event.fireCap 8000)).callbackCount = 1 := by
  have h := hard_cap_enforcement 1200 0 [Event.canPlay 100] (by decide)
    (by intro e he; simp at he; subst he; exact ⟨rfl, rfl, rfl⟩)
  exact h.2.2.2.1

/-- Claim C5: error equivalence.  While the session has not yet completed,
a media error delivered at any time in the desktop branch logs one
diagnostic, immediately sets the latch and invokes the host callback, and
leaves a host view identical to the one a natural media ended event
(delivered at any time) would leave: no user-facing error state. -/
theorem media_error_equivalence (s : LSState) (t t2 : Nat)
    (hd : s.tier = DeviceTier.desktop) (hc : s.completed = false) :
    hostView (step s (Event.error t)) = hostView (step s (Event.ended t2)) ∧
    (step s (Event.error t)).completed = true ∧
    (step s (Event.error t)).callbackCount = s.callbackCount + 1 ∧
    (step s (Event.error t)).errorLogs = s.errorLogs + 1 := by
  refine ⟨?_, ?_, ?_, ?_⟩ <;> simp [step, hd, handleEnd, hc, hostView]

/-- Witness for C5: an error at 3000 ms in a fresh desktop session is
host-indistinguishable from a natural end at 3000 ms. -/
theorem media_error_equivalence_witness :
    hostView (step (initState 1200 0) (Event.error 3000)) =
      hostView (step (initState 1200 0) (Event.ended 3000)) ∧
    (step (initState 1200 0) (Event.error 3000)).completed = true := by
  have h := media_error_equivalence (initState 1200 0) 3000 3000
    (by decide) (by decide)
  exact ⟨h.1, h.2.1⟩

lemma progressDuration_pos (t : DeviceTier) : 0 < progressDuration t := by
  unfold progressDuration
  split_ifs <;> norm_num

/-- The fraction computed by one tick. -/
def tickPct (s : LSState) (start now : Nat) : ℚ :=
  min (((now - start : Nat) : ℚ) / progressDuration s.tier) 1

lemma frameTick_eq_of_lt {s : LSState} {start now : Nat}
    (hs : s.progressStart = some start) (h : tickPct s start now < 1) :
    frameTick s now = { s with progress := tickPct s start now } := by
  unfold frameTick
  rw [hs]
  simp only [tickPct] at h ⊢
  rw [if_pos h]

lemma frameTick_eq_of_ge {s : LSState} {start now : Nat}
    (hs : s.progressStart = some start) (h : ¬ tickPct s start now < 1) :
    frameTick s now =
      { s with progress := tickPct s start now, progressStart := none } := by
  unfold frameTick
  rw [hs]
  simp only [tickPct] at h ⊢
  rw [if_neg h]

lemma frameTick_eq_of_none {s : LSState} (hs : s.progressStart = none)
    (now : Nat) : frameTick s now = s := by
  unfold frameTick
  rw [hs]

lemma frameTick_progress {s : LSState} {start : Nat}
    (hs : s.progressStart = some start) (now : Nat) :
    (frameTick s now).progress = tickPct s start now := by
  by_cases h : tickPct s start now < 1
  · rw [frameTick_eq_of_lt hs h]
  · rw [frameTick_eq_of_ge hs h]

lemma tickPct_nonneg (s : LSState) (start now : Nat) :
    0 ≤ tickPct s start now :=
  le_min (div_nonneg (Nat.cast_nonneg _) (progressDuration_pos s.tier).le)
    zero_le_one

lemma tickPct_le_one (s : LSState) (start now : Nat) :
    tickPct s start now ≤ 1 :=
  min_le_right _ _

lemma tickPct_mono (s : LSState) (start : Nat) {t1 t2 : Nat} (h12 : t1 ≤ t2) :
    tickPct s start t1 ≤ tickPct s start t2 := by
  refine min_le_min ?_ le_rfl
  refine div_le_div_of_nonneg_right ?_ (progressDuration_pos s.tier).le
  exact_mod_cast Nat.sub_le_sub_right h12 start

lemma frameTick_frameTick_progress {s : LSState} {start : Nat}
    (hs : s.progressStart = some start) {t1 t2 : Nat} (h12 : t1 ≤ t2) :
    (frameTick (frameTick s t1) t2).progress = tickPct s start t2 := by
  by_cases hc1 : tickPct s start t1 < 1
  · have e1 := frameTick_eq_of_lt hs hc1
    have hs1 : (frameTick s t1).progressStart = some start := by
      rw [e1]
      exact hs
    have ht1 : (frameTick s t1).tier = s.tier := by rw [e1]
    rw [frameTick_progress hs1 t2]
    unfold tickPct
    rw [ht1]
  · have e1 := frameTick_eq_of_ge hs hc1
    have hs1 : (frameTick s t1).progressStart = none := by rw [e1]
    rw [frameTick_eq_of_none hs1 t2, e1]
    have h1 : tickPct s start t1 = 1 :=
      le_antisymm (tickPct_le_one s start t1) (not_lt.mp hc1)
    have h2 : tickPct s start t2 = 1 :=
      le_antisymm (tickPct_le_one s start t2)
        (h1 ▸ tickPct_mono s start h12)
    show tickPct s start t1 = tickPct s start t2
    rw [h1, h2]

/-- Claim C6: progress monotonicity and bound.  Within one branch run of a
non-media tier (a pending animation with a fixed start), frame deliveries
at non-decreasing instants produce a non-decreasing progress fraction that
stays in [0, 1], and frame ticks never touch the completion latch or the
host callback — only the fixed timer completes, independently. -/
theorem progress_monotone_bound (s : LSState) (start t1 t2 : Nat)
    (hs : s.progressStart = some start) (h12 : t1 ≤ t2) :
    0 ≤ (frameTick s t1).progress ∧
    (frameTick s t1).progress ≤ 1 ∧
    (frameTick s t1).progress ≤ (frameTick (frameTick s t1) t2).progress ∧
    (frameTick (frameTick s t1) t2).progress ≤ 1 ∧
    (frameTick s t1).completed = s.completed ∧
    (frameTick s t1).callbackCount = s.callbackCount ∧
    (frameTick (frameTick s t1) t2).completed = s.completed ∧
    (frameTick (frameTick s t1) t2).callbackCount = s.callbackCount := by
  rw [frameTick_progress hs t1, frameTick_frameTick_progress hs h12]
  refine ⟨tickPct_nonneg s start t1, tickPct_le_one s start t1,
    tickPct_mono s start h12, tickPct_le_one s start t2, ?_, ?_, ?_, ?_⟩ <;>
    simp

/-- Witness for C6 in a mobile branch at frames 900 and 2100 ms. -/
theorem progress_monotone_bound_witness :
    0 ≤ (frameTick (initState 500 0) 900).progress ∧
    (frameTick (initState 500 0) 900).progress ≤ 1 ∧
    (frameTick (initState 500 0) 900).progress ≤
      (frameTick (frameTick (initState 500 0) 900) 2100).progress ∧
    (frameTick (frameTick (initState 500 0) 900) 2100).progress ≤ 1 ∧
    (frameTick (initState 500 0) 900).completed = (initState 500 0).completed ∧
    (frameTick (initState 500 0) 900).callbackCount =
      (initState 500 0).callbackCount ∧
    (frameTick (frameTick (initState 500 0) 900) 2100).completed =
      (initState 500 0).completed ∧
    (frameTick (frameTick (initState 500 0) 900) 2100).callbackCount =
      (initState 500 0).callbackCount :=
  progress_monotone_bound (initState 500 0) 0 900 2100 (by decide) (by decide)

/-- Claim C7: progress formula.  With an animation pending since `start`,
a frame delivered at `t` sets the progress fraction to
`min(elapsed / duration, 1)` with `elapsed = t - start`, where the
duration is 1800 ms for the mobile (Compact) tier and 2200 ms for the
tablet (Medium) tier, and it keeps requesting frames exactly while the
fraction is below 1. -/
theorem progress_formula (s : LSState) (start t : Nat)
    (hs : s.progressStart = some start) :
    (frameTick s t).progress =
      min (((t - start : Nat) : ℚ) / progressDuration s.tier) 1 ∧
    ((frameTick s t).progressStart =
      if min (((t - start : Nat) : ℚ) / progressDuration s.tier) 1 < 1
      then some start else none) ∧
    progressDuration DeviceTier.mobile = 1800 ∧
    progressDuration DeviceTier.tablet = 2200 := by
  refine ⟨frameTick_progress hs t, ?_, by simp [progressDuration],
    by simp [progressDuration]⟩
  by_cases h : tickPct s start t < 1
  · rw [frameTick_eq_of_lt hs h]
    simp only [tickPct] at h
    rw [if_pos h]
    exact hs
  · rw [frameTick_eq_of_ge hs h]
    simp only [tickPct] at h
    rw [if_neg h]

/-- Witness for C7: a mobile-branch frame at 900 ms. -/
theorem progress_formula_witness :
    (frameTick (initState 500 0) 900).progress =
      min (((900 - 0 : Nat) : ℚ) / progressDuration (initState 500 0).tier) 1 ∧
    ((frameTick (initState 500 0) 900).progressStart =
      if min (((900 - 0 : Nat) : ℚ) /
          progressDuration (initState 500 0).tier) 1 < 1
      then some 0 else none) ∧
    progressDuration DeviceTier.mobile = 1800 ∧
    progressDuration DeviceTier.tablet = 2200 :=
  progress_formula (initState 500 0) 0 900 (by decide)

/-- Claim C8: tier-change restart.  A re-classification to a different
tier cancels the previous branch's timers and frame requests, activates
exactly the new tier's strategy with its timer restarted from the switch
time, restarts the animation from the switch time for non-media tiers (so
the first frame produces fraction 0), and leaves the latch and callback
count untouched. -/
theorem tier_change_restart (s : LSState) (t w : Nat)
    (hne : getDeviceTier w ≠ s.tier) :
    (step s (Event.resize t w)).tier = getDeviceTier w ∧
    (step s (Event.resize t w)).mobileT =
      (if getDeviceTier w = DeviceTier.mobile then some (t + 2000) else none) ∧
    (step s (Event.resize t w)).tabletT =
      (if getDeviceTier w = DeviceTier.tablet then some (t + 2500) else none) ∧
    (step s (Event.resize t w)).desktopCap =
      (if getDeviceTier w = DeviceTier.desktop then some (t + 8000) else none) ∧
    (step s (Event.resize t w)).progressStart =
      (if getDeviceTier w = DeviceTier.desktop then none else some t) ∧
    (getDeviceTier w ≠ DeviceTier.desktop →
      (frameTick (step s (Event.resize t w)) t).progress = 0) ∧
    (step s (Event.resize t w)).completed = s.completed ∧
    (step s (Event.resize t w)).callbackCount = s.callbackCount := by
  rw [show step s (Event.resize t w) = setTier s w t from rfl,
    setTier_ne_eq s w t hne]
  refine ⟨rfl, rfl, rfl, rfl, rfl, ?_, rfl, rfl⟩
  intro hd
  have hps : ({ s with
      tier := getDeviceTier w,
      mobileT := if getDeviceTier w = DeviceTier.mobile
        then some (t + 2000) else none,
      tabletT := if getDeviceTier w = DeviceTier.tablet
        then some (t + 2500) else none,
      desktopCap := if getDeviceTier w = DeviceTier.desktop
        then some (t + 8000) else none,
      progressStart := if getDeviceTier w = DeviceTier.desktop
        then none else some t } : LSState).progressStart = some t := by
    simp [if_neg hd]
  rw [frameTick_progress hps t]
  unfold tickPct
  norm_num

/-- Witness for C8: a desktop session re-classified to mobile width 500 at
1000 ms restarts the branch from that instant. -/
theorem tier_change_restart_witness :
    (step (initState 1200 0) (Event.resize 1000 500)).tier =
      getDeviceTier 500 ∧
    (step (initState 1200 0) (Event.resize 1000 500)).mobileT =
      (if getDeviceTier 500 = DeviceTier.mobile then some 3000 else none) ∧
    (frameTick (step (initState 1200 0) (Event.resize 1000 500))
      1000).progress = 0 := by
  have h := tier_change_restart (initState 1200 0) 1000 500 (by decide)
  exact ⟨h.1, h.2.1, h.2.2.2.2.2.1 (by decide)⟩

/-- Claim C9: tier-switch cleanup.  Activating the tablet (Medium) branch
at `t0` and switching to a mobile (Compact) width at `t1 < t0 + 2500`
leaves no tablet timer and no cap registered — the abandoned 2500 ms timer
can never fire — while the mobile 2000 ms timer restarted at the switch
time is registered, has not completed anything yet, completes exactly when
delivered at `t1 + 2000`, and can be delivered at no other instant. -/
theorem tier_switch_cleanup (w0 w1 t0 t1 : Nat)
    (h0a : 768 ≤ w0) (h0b : w0 < 1024) (h1 : w1 < 768)
    (ht : t1 < t0 + 2500) :
    (step (initState w0 t0) (Event.resize t1 w1)).tabletT = none ∧
    (step (initState w0 t0) (Event.resize t1 w1)).desktopCap = none ∧
    (∀ t, step (step (initState w0 t0) (Event.resize t1 w1))
      (Event.fireTablet t) = step (initState w0 t0) (Event.resize t1 w1)) ∧
    (step (initState w0 t0) (Event.resize t1 w1)).mobileT =
      some (t1 + 2000) ∧
    (step (initState w0 t0) (Event.resize t1 w1)).completed = false ∧
    (step (step (initState w0 t0) (Event.resize t1 w1))
      (Event.fireMobile (t1 + 2000))).completed = true ∧
    (step (step (initState w0 t0) (Event.resize t1 w1))
      (Event.fireMobile (t1 + 2000))).callbackCount = 1 ∧
    (∀ t, t ≠ t1 + 2000 →
      step (step (initState w0 t0) (Event.resize t1 w1))
        (Event.fireMobile t) = step (initState w0 t0) (Event.resize t1 w1)) := by
  have hg0 : getDeviceTier w0 = DeviceTier.tablet :=
    getDeviceTier_eq_tablet h0a h0b
  have hg1 : getDeviceTier w1 = DeviceTier.mobile := getDeviceTier_eq_mobile h1
  have hne : getDeviceTier w1 ≠ (initState w0 t0).tier := by
    rw [initState_eq, hg1, hg0]
    simp
  rw [show step (initState w0 t0) (Event.resize t1 w1) =
      setTier (initState w0 t0) w1 t1 from rfl,
    setTier_ne_eq (initState w0 t0) w1 t1 hne, initState_eq, hg1]
  refine ⟨by simp, by simp, ?_, by simp, by simp, ?_, ?_, ?_⟩
  · intro t
    simp [step]
  · simp [step, handleEnd]
  · simp [step, handleEnd]
  · intro t htne
    have hne2 : ¬ (t1 + 2000 = t) := fun hh => htne hh.symm
    simp [step, hne2]

/-- Witness for C9: Medium at width 900, switch to width 500 at 1200 ms;
the restarted Compact timer completes when delivered at 3200 ms. -/
theorem tier_switch_cleanup_witness :
    (step (initState 900 0) (Event.resize 1200 500)).tabletT = none ∧
    (step (step (initState 900 0) (Event.resize 1200 500))
      (Event.fireMobile 3200)).callbackCount = 1 := by
  have h := tier_switch_cleanup 900 500 0 1200 (by decide) (by decide)
    (by decide) (by decide)
  exact ⟨h.1, h.2.2.2.2.2.2.1⟩

/-- Claim C10: video readiness is monotone for the whole session.  Setting
it is exactly what the can-play-through event does in the desktop tier,
and once it is true no later event — including tier switches away from and
back to desktop — resets it, so the buffering indicator is never rendered
again for the rest of the session. -/
theorem videoReady_session_monotone (w t0 : Nat) (evs evs2 : List Event)
    (h : (run (initState w t0) evs).videoReady = true) :
    (run (run (initState w t0) evs) evs2).videoReady = true ∧
    showBuffering (run (run (initState w t0) evs) evs2) = false ∧
    (∀ s2 t, s2.tier = DeviceTier.desktop →
      (step s2 (Event.canPlay t)).videoReady = true) := by
  have hm := run_videoReady_mono evs2 h
  refine ⟨hm, ?_, ?_⟩
  · unfold showBuffering
    simp [hm]
  · intro s2 t hd
    simp [step, hd]

/-- Witness for C10: readiness set at 100 ms in a desktop session survives
a switch to mobile and back to desktop. -/
theorem videoReady_session_monotone_witness :
    (run (run (initState 1200 0) [Event.canPlay 100])
      [Event.resize 200 500, Event.resize 300 1200]).videoReady = true ∧
    showBuffering (run (run (initState 1200 0) [Event.canPlay 100])
      [Event.resize 200 500, Event.resize 300 1200]) = false ∧
    (∀ s2 t, s2.tier = DeviceTier.desktop →
      (step s2 (Event.canPlay t)).videoReady = true) :=
  videoReady_session_monotone 1200 0 [Event.canPlay 100]
    [Event.resize 200 500, Event.resize 300 1200] (by decide)

end Anvora
